import Mathlib

/-!
Shallow embedding of the ML-service model lifecycle of the zemfyre-sensor
repository: the Isolation-Forest anomaly detector
(`src/ml-service/models/isolation_forest.py`), the LSTM forecaster
(`src/ai/ml-service/models/lstm_forecast.py`), and the HTTP routers that
orchestrate them (`src/ai/ml-service/routers/anomalies.py`,
`src/ml-service/routers/forecasts.py`).

Python floats are idealised as exact rationals (and reals where a square
root is involved).  Library calls that are external to the repository
(sklearn's forest fitting, the Keras network) are abstracted as function
parameters: the code under verification only threads data through them.
-/

namespace Zemfyre

/-! ## Settings (`src/ai/ml-service/config.py`) -/

def MIN_TRAINING_SAMPLES : ℕ := 100
def ISOLATION_FOREST_N_ESTIMATORS : ℕ := 100
def ISOLATION_FOREST_CONTAMINATION : ℚ := 1/100
def LSTM_SEQUENCE_LENGTH : ℕ := 50
def LSTM_FORECAST_HORIZON : ℕ := 12

/-! ## Error taxonomy (ValueError / KeyError / FileNotFoundError variants) -/

inductive MLError where
  | insufficientData
  | featureMismatch (missing : List String)
  | notTrained
  | keyError
  | modelNotFound
  deriving Repr, DecidableEq

/-! ## Feature tables

A fetched multi-metric history: a list of column names and rows holding one
numeric value per column. -/

structure DataFrame where
  columns : List String
  rows : List (List ℚ)
  deriving Repr

/-- Row projection `df[features]`: value of feature `f` in row `r`. -/
def colVal (df : DataFrame) (r : List ℚ) (f : String) : ℚ :=
  r.getD (df.columns.indexOf f) 0

/-- Column slice `df[features].values`: each row restricted to `features`, in that order. -/
def sliceCols (df : DataFrame) (features : List String) : List (List ℚ) :=
  df.rows.map (fun r => features.map (colVal df r))

/-! ## StandardScaler (parameters stored with the anomaly model) -/

structure Scaler where
  mean : List ℚ
  scale : List ℚ
  deriving Repr

/-- Applies `scaler.transform` to one row: componentwise `(x - mean) / scale`. -/
def transformRow (sc : Scaler) (row : List ℚ) : List ℚ :=
  (row.zip (sc.mean.zip sc.scale)).map (fun p => (p.1 - p.2.1) / p.2.2)

/-! ## Isolation forest

sklearn's fitted ensemble is summarised by its scoring function
(`score_samples`, lower = more anomalous) and the decision offset:
`predict` returns -1 (anomaly) exactly when `score_samples < offset_`. -/

structure Forest where
  scoreRow : List ℚ → ℚ
  offset : ℚ

/-- sklearn draws its randomness from `random_state` when given, otherwise
from fresh environment entropy. -/
def seedOf (randomState : Option ℕ) (entropy : ℕ) : ℕ :=
  randomState.getD entropy

/-! ## `IsolationForestAnomalyDetector` state -/

structure IFDetector where
  contamination : ℚ
  model : Option Forest
  scaler : Scaler
  feature_names : List String
  training_samples : ℕ

/-- A fresh `IsolationForestAnomalyDetector()` (default contamination). -/
def initIF : IFDetector :=
  { contamination := ISOLATION_FOREST_CONTAMINATION
    model := none
    scaler := ⟨[], []⟩
    feature_names := []
    training_samples := 0 }

/-- Computes `np.percentile(scores, 1)` with numpy's default linear interpolation:
sort ascending, let `h = (n-1)/100`, interpolate between the entries at
`⌊h⌋` and `⌊h⌋+1`. -/
def percentile1 (scores : List ℚ) : ℚ :=
  let s := scores.insertionSort (· ≤ ·)
  let n := scores.length
  let k := (n - 1) / 100
  let lo := s.getD k 0
  let hi := s.getD (k + 1) lo
  lo + (((n - 1) % 100 : ℕ) : ℚ) / 100 * (hi - lo)

/-- The severity lambda of `IsolationForestAnomalyDetector.predict`
(isolation_forest.py lines 97-102). -/
def severityOf (isAnom : Bool) (score t : ℚ) : String :=
  if score < t then "critical" else if isAnom then "warning" else "normal"

/-- One row of the result frame of `predict`. -/
structure ARow where
  is_anomaly : Bool
  anomaly_score : ℚ
  severity : String
  featureVals : List ℚ
  deriving Repr, DecidableEq

/-- Embeds `IsolationForestAnomalyDetector.train` (isolation_forest.py lines 28-57).
`mkForest` stands for sklearn's `IsolationForest(...).fit`, a deterministic
function of its parameters, its seed and the scaled data; `fitSc` stands for
`StandardScaler.fit`.  The code passes `random_state=42`, so the entropy the
environment would otherwise supply is ignored. -/
def trainIF (mkForest : ℕ → ℚ → ℕ → List (List ℚ) → Forest)
    (fitSc : List (List ℚ) → Scaler) (entropy : ℕ)
    (d : IFDetector) (df : DataFrame) (features : List String) :
    Except MLError IFDetector :=
  if df.rows.length < MIN_TRAINING_SAMPLES then
    .error .insufficientData
  else if ¬ ∀ f ∈ features, f ∈ df.columns then
    .error .keyError
  else
    let X := sliceCols df features
    let sc := fitSc X
    let Xs := X.map (transformRow sc)
    .ok { d with
      feature_names := features
      training_samples := df.rows.length
      scaler := sc
      model := some (mkForest ISOLATION_FOREST_N_ESTIMATORS d.contamination
        (seedOf (some 42) entropy) Xs) }

/-- Embeds `IsolationForestAnomalyDetector.predict` (isolation_forest.py lines
64-108): check trained, check every trained feature is a column, scale,
score, flag (`predictions == -1` i.e. `score < offset`), bucket severity by
the batch 1st percentile, echo feature values. -/
def predictIF (d : IFDetector) (df : DataFrame) : Except MLError (List ARow) :=
  match d.model with
  | none => .error .notTrained
  | some forest =>
    if ∀ f ∈ d.feature_names, f ∈ df.columns then
      let X := sliceCols df d.feature_names
      let t := percentile1 (X.map (fun x => forest.scoreRow (transformRow d.scaler x)))
      .ok (X.map (fun x =>
        let s := forest.scoreRow (transformRow d.scaler x)
        let flag := decide (s < forest.offset)
        { is_anomaly := flag
          anomaly_score := s
          severity := severityOf flag s t
          featureVals := x }))
    else
      .error (.featureMismatch (d.feature_names.filter (fun f => decide (f ∉ df.columns))))

/-! ## MinMaxScaler (parameters stored with the forecast model) -/

structure MMScaler where
  mn : ℚ
  mx : ℚ
  deriving Repr, DecidableEq

/-- sklearn's `scale_` for feature range (0,1): `1/(max-min)`, with a zero
data range handled as scale 1. -/
def mmScaleFac (sc : MMScaler) : ℚ :=
  if sc.mx = sc.mn then 1 else 1 / (sc.mx - sc.mn)

def mmTransform (sc : MMScaler) (x : ℚ) : ℚ :=
  (x - sc.mn) * mmScaleFac sc

def mmInverse (sc : MMScaler) (x : ℚ) : ℚ :=
  x / mmScaleFac sc + sc.mn

def listMin (l : List ℚ) : ℚ := l.foldl min (l.headD 0)
def listMax (l : List ℚ) : ℚ := l.foldl max (l.headD 0)

/-- Fit of the `MinMaxScaler` over a single-column series. -/
def mmFit (values : List ℚ) : MMScaler := ⟨listMin values, listMax values⟩

/-! ## `LSTMForecaster` -/

structure LSTMState where
  sequence_length : ℕ
  forecast_horizon : ℕ
  model : Option (List ℚ → List ℚ)
  scaler : MMScaler
  training_samples : ℕ

/-- A fresh `LSTMForecaster()` (settings defaults). -/
def initLSTM : LSTMState :=
  { sequence_length := LSTM_SEQUENCE_LENGTH
    forecast_horizon := LSTM_FORECAST_HORIZON
    model := none
    scaler := ⟨0, 0⟩
    training_samples := 0 }

/-- Embeds `LSTMForecaster.prepare_sequences` (lstm_forecast.py lines 33-47):
`for i in range(len(data) - L - H): X.append(data[i:i+L]); y.append(data[i+L:i+L+H])`.
Python's `range` of a non-positive bound is empty, matching ℕ subtraction. -/
def prepare_sequences (L H : ℕ) (data : List ℚ) : List (List ℚ × List ℚ) :=
  (List.range (data.length - L - H)).map
    (fun i => ((data.drop i).take L, (data.drop (i + L)).take H))

/-- Embeds `LSTMForecaster.train` (lstm_forecast.py lines 49-119).  `mkNet` stands
for building + fitting the Keras network on the 80/20 time-ordered split;
the fitted network maps one scaled input window to the scaled horizon
outputs. -/
def trainLSTM
    (mkNet : List (List ℚ) → List (List ℚ) → List (List ℚ) → List (List ℚ) →
      (List ℚ → List ℚ))
    (f : LSTMState) (values : List ℚ) : Except MLError LSTMState :=
  let sc := mmFit values
  let scaled := values.map (mmTransform sc)
  let Xy := prepare_sequences f.sequence_length f.forecast_horizon scaled
  if Xy.length < MIN_TRAINING_SAMPLES then
    .error .insufficientData
  else
    let splitIdx := Xy.length * 4 / 5
    let X := Xy.map Prod.fst
    let y := Xy.map Prod.snd
    .ok { f with
      scaler := sc
      training_samples := Xy.length
      model := some (mkNet (X.take splitIdx) (y.take splitIdx)
        (X.drop splitIdx) (y.drop splitIdx)) }

/-- Sample standard deviation with pandas' default `ddof=1`
(`Series.std()`), as a rational variance. -/
def sampleVarQ (xs : List ℚ) : ℚ :=
  if xs.length ≤ 1 then 0
  else
    let m := xs.sum / xs.length
    (xs.map (fun x => (x - m) ^ 2)).sum / (xs.length - 1 : ℕ)

noncomputable def sampleStd (xs : List ℚ) : ℝ :=
  Real.sqrt (sampleVarQ xs)

/-- One row of the forecast result frame (timestamps, which advance by a
fixed 60 s step, are omitted). -/
structure ForecastStep where
  predicted_value : ℚ
  confidence_lower : ℝ
  confidence_upper : ℝ

/-- Python's `xs[-n:]`. -/
def takeLast (xs : List ℚ) (n : ℕ) : List ℚ := xs.drop (xs.length - n)

/-- Embeds `LSTMForecaster.predict` (lstm_forecast.py lines 121-172): check
trained, take the last L raw values (error if fewer), scale, run the
network, inverse-scale, and attach `predicted ± 1.96 * std` where the std
is `recent_data[value_column].std()` — the whole input column — with the
lower bound clipped at 0. -/
noncomputable def predictLSTM (f : LSTMState) (recent : List ℚ) :
    Except MLError (List ForecastStep) :=
  match f.model with
  | none => .error .notTrained
  | some net =>
    let values := takeLast recent f.sequence_length
    if values.length < f.sequence_length then
      .error .insufficientData
    else
      let scaled := values.map (mmTransform f.scaler)
      let preds := (net scaled).map (mmInverse f.scaler)
      let recent_std := sampleStd recent
      .ok (preds.map (fun p =>
        { predicted_value := p
          confidence_lower := max 0 ((p : ℝ) - 1.96 * recent_std)
          confidence_upper := (p : ℝ) + 1.96 * recent_std }))

/-! ## Model store (joblib files under `MODEL_DIR`)

A save writes model + scaler + metadata under one key; keys are the device
uuid for anomaly models and `deviceUuid_fieldSanitized` for forecast
models. -/

structure IFMetadata where
  feature_names : List String
  contamination : ℚ
  training_samples : ℕ
  deriving Repr, DecidableEq

structure SavedIF where
  model : Option Forest
  scaler : Scaler
  metadata : IFMetadata

structure LSTMMetadata where
  sequence_length : ℕ
  forecast_horizon : ℕ
  training_samples : ℕ
  field : String
  deriving Repr, DecidableEq

structure SavedLSTM where
  model : Option (List ℚ → List ℚ)
  scaler : MMScaler
  metadata : LSTMMetadata

def Store (α : Type) : Type := List (String × α)

def storePut {α : Type} (st : Store α) (k : String) (v : α) : Store α :=
  (k, v) :: st

def storeGet {α : Type} (st : Store α) (k : String) : Option α :=
  List.lookup k st

/-- Embeds `IsolationForestAnomalyDetector.save` (isolation_forest.py 110-131). -/
def saveIF (st : Store SavedIF) (device_uuid : String) (d : IFDetector) :
    Store SavedIF :=
  storePut st device_uuid
    { model := d.model
      scaler := d.scaler
      metadata :=
        { feature_names := d.feature_names
          contamination := d.contamination
          training_samples := d.training_samples } }

/-- Embeds `IsolationForestAnomalyDetector.load` (isolation_forest.py 133-158). -/
def loadIF (st : Store SavedIF) (device_uuid : String) (d : IFDetector) :
    Except MLError IFDetector :=
  match storeGet st device_uuid with
  | none => .error .modelNotFound
  | some a =>
    .ok { d with
      model := a.model
      scaler := a.scaler
      feature_names := a.metadata.feature_names
      contamination := a.metadata.contamination
      training_samples := a.metadata.training_samples }

/-- Field sanitization `field.replace('.', '_')` shared by LSTM save/load. -/
def sanitizeField (f : String) : String := f.replace "." "_"

def lstmKey (device_uuid f : String) : String :=
  device_uuid ++ "_" ++ sanitizeField f

/-- Embeds `LSTMForecaster.save` (lstm_forecast.py 174-199). -/
def saveLSTM (st : Store SavedLSTM) (device_uuid fld : String)
    (f : LSTMState) : Store SavedLSTM :=
  storePut st (lstmKey device_uuid fld)
    { model := f.model
      scaler := f.scaler
      metadata :=
        { sequence_length := f.sequence_length
          forecast_horizon := f.forecast_horizon
          training_samples := f.training_samples
          field := fld } }

/-- Embeds `LSTMForecaster.load` (lstm_forecast.py 201-230). -/
def loadLSTM (st : Store SavedLSTM) (device_uuid fld : String)
    (f : LSTMState) : Except MLError LSTMState :=
  match storeGet st (lstmKey device_uuid fld) with
  | none => .error .modelNotFound
  | some a =>
    .ok { f with
      model := a.model
      scaler := a.scaler
      sequence_length := a.metadata.sequence_length
      forecast_horizon := a.metadata.forecast_horizon
      training_samples := a.metadata.training_samples }

/-! ## `/ml/anomalies/detect/{device_uuid}` (anomalies.py lines 99-166) -/

structure DetectResponse where
  analyzed_points : ℕ
  anomalies_detected : ℕ
  anomalies : List ARow
  deriving Repr, DecidableEq

/-- The detect endpoint: load the model (FileNotFoundError → 404 not
trained), the caller-supplied fetch result `df` stands for
`fetch_multi_metric_history`; zero rows → 404 no data; otherwise predict,
keep the flagged rows, return the first 100 of them while
`anomalies_detected` counts them all.  Errors carry (status, detail). -/
def detect (st : Store SavedIF) (device_uuid : String) (df : DataFrame) :
    Except (ℕ × String) DetectResponse :=
  match loadIF st device_uuid initIF with
  | .error _ =>
    .error (404, "Model not trained. Call /ml/anomalies/train endpoint first.")
  | .ok detector =>
    if df.rows.length = 0 then
      .error (404, "No data found for specified time period")
    else
      match predictIF detector df with
      | .error _ => .error (500, "Detection failed")
      | .ok results =>
        let anomalies_df := results.filter (·.is_anomaly)
        .ok { analyzed_points := results.length
              anomalies_detected := anomalies_df.length
              anomalies := anomalies_df.take 100 }

/-! ## Concrete inputs used by counterexamples and witnesses -/

/-- A trained detector: scores a (scaled) row by its first feature, decision
offset -7/10.  With identity scaler parameters mean 0, scale 1. -/
def cDetector : IFDetector :=
  { contamination := 1/100
    model := some ⟨fun r => r.headD 0, -7/10⟩
    scaler := ⟨[0], [1]⟩
    feature_names := ["x"]
    training_samples := 100 }

/-- A two-row batch whose scores are -3/5 and -1/2: both above the decision
offset (unflagged), but -3/5 is strictly below the batch 1st percentile
-599/1000. -/
def cBatch : DataFrame := ⟨["x"], [[-3/5], [-1/2]]⟩

def w1Det : IFDetector :=
  { contamination := 1/100
    model := some ⟨fun r => r.headD 0, -1⟩
    scaler := ⟨[0], [1]⟩
    feature_names := ["x"]
    training_samples := 100 }

def w1Df : DataFrame := ⟨["x"], [[-2], [0]]⟩

def w1Row : ARow :=
  { is_anomaly := true, anomaly_score := -2, severity := "critical"
    featureVals := [-2] }

def w1Out : List ARow :=
  [w1Row,
   { is_anomaly := false, anomaly_score := 0, severity := "normal"
     featureVals := [0] }]

def w5Det : IFDetector :=
  { contamination := 1/100
    model := some ⟨fun _ => 0, 0⟩
    scaler := ⟨[0], [1]⟩
    feature_names := ["cpu_usage"]
    training_samples := 100 }

def w5DfOk : DataFrame := ⟨["cpu_usage"], [[1]]⟩
def w5DfBad : DataFrame := ⟨["uptime"], [[1]]⟩

def w6Forest : ℕ → ℚ → ℕ → List (List ℚ) → Forest := fun _ _ _ _ => ⟨fun _ => 0, 0⟩
def w6Scaler : List (List ℚ) → Scaler := fun _ => ⟨[], []⟩

def w6Df : DataFrame :=
  ⟨["cpu_usage", "memory_usage_percent"], List.replicate 100 [0, 0]⟩

def w6DfSmall : DataFrame := ⟨["cpu_usage", "memory_usage_percent"], [[0, 0]]⟩

/-- A trained forecaster with L = 3, H = 1 whose network predicts the
scaled constant 0. -/
def cForecaster : LSTMState :=
  { sequence_length := 3
    forecast_horizon := 1
    model := some (fun _ => [0])
    scaler := ⟨0, 1⟩
    training_samples := 100 }

/-- Four raw input points: the whole series has sample std 1, but its last
3 values [0, 0, 0] have std 0. -/
def cRecent : List ℚ := [2, 0, 0, 0]

def w3F : LSTMState :=
  { sequence_length := 1
    forecast_horizon := 2
    model := some (fun _ => [1/2, 1/4])
    scaler := ⟨0, 1⟩
    training_samples := 100 }

def w3Recent : List ℚ := [3]

def c8Detector : IFDetector :=
  { contamination := 1/100
    model := some ⟨fun _ => 0, 0⟩
    scaler := ⟨[], []⟩
    feature_names := []
    training_samples := 100 }

/-- A store holding a trained anomaly model for device "dev". -/
def c8Store : Store SavedIF := saveIF [] "dev" c8Detector

/-- A fetch result with zero rows in the requested range. -/
def c8EmptyDf : DataFrame := ⟨["cpu_usage"], []⟩

/-- A trained detector that scores every row -1 with decision offset 0, so
every row is flagged anomalous. -/
def c9Det : IFDetector :=
  { contamination := 1/100
    model := some ⟨fun _ => -1, 0⟩
    scaler := ⟨[0], [1]⟩
    feature_names := ["x"]
    training_samples := 100 }

def c9St : Store SavedIF := saveIF [] "dev9" c9Det

/-- A fetch result of 101 identical rows: all get flagged, so
`anomalies_detected` = 101 while the returned list is truncated to 100. -/
def c9Df : DataFrame := ⟨["x"], List.replicate 101 [0]⟩

/-- A one-row fetch result for the same device. -/
def c9Df1 : DataFrame := ⟨["x"], [[0]]⟩

/-- The single result row of predict on `c9Df` (or `c9Df1`): flagged, score
-1, severity "warning" (the batch 1st percentile of equal scores is that
score itself). -/
def c9Row : ARow :=
  { is_anomaly := true, anomaly_score := -1, severity := "warning"
    featureVals := [0] }

end Zemfyre

deriving instance DecidableEq for Except

namespace Zemfyre

/-! ## Helper lemmas -/

theorem length_prepare_sequences (L H : ℕ) (data : List ℚ) :
    (prepare_sequences L H data).length = data.length - L - H := by
  simp [prepare_sequences]

theorem storeGet_put {α : Type} (st : Store α) (k : String) (v : α) :
    storeGet (storePut st k v) k = some v := by
  simp [storeGet, storePut, List.lookup]

theorem filter_replicate_of_pos {α : Type} (p : α → Bool) (a : α)
    (h : p a = true) (n : ℕ) :
    (List.replicate n a).filter p = List.replicate n a := by
  induction n with
  | zero => rfl
  | succ n ih => simp [List.replicate_succ, List.filter_cons, h, ih]

/-! ## Claims -/

/-- C2: for every scalar series of length N, sequence length L and horizon
H, `prepare_sequences` produces exactly max(0, N−L−H) window pairs, and for
each index i below that count the i-th pair is
(series[i : i+L], series[i+L : i+L+H]) with lengths exactly L and H. -/
theorem prepare_sequences_spec (L H : ℕ) (s : List ℚ) :
    ((prepare_sequences L H s).length : ℤ) = max 0 ((s.length : ℤ) - L - H) ∧
    ∀ i, i < s.length - L - H →
      (prepare_sequences L H s).getD i ([], []) =
        ((s.drop i).take L, (s.drop (i + L)).take H) ∧
      ((s.drop i).take L).length = L ∧ ((s.drop (i + L)).take H).length = H := by
  constructor
  · rw [length_prepare_sequences]
    omega
  · intro i hi
    refine ⟨?_, ?_, ?_⟩
    · rw [prepare_sequences, List.getD_eq_getElem?_getD, List.getElem?_map,
        List.getElem?_range hi]
      rfl
    · simp only [List.length_take, List.length_drop]
      omega
    · simp only [List.length_take, List.length_drop]
      omega

/-- Witness for C2 at L = 1, H = 1, series [1, 2, 3]: one window,
X = [1], Y = [2]. -/
theorem prepare_sequences_spec_witness :
    (prepare_sequences 1 1 [(1 : ℚ), 2, 3]).getD 0 ([], []) =
      (([(1 : ℚ), 2, 3].drop 0).take 1, ([(1 : ℚ), 2, 3].drop (0 + 1)).take 1) ∧
    (([(1 : ℚ), 2, 3].drop 0).take 1).length = 1 ∧
    (([(1 : ℚ), 2, 3].drop (0 + 1)).take 1).length = 1 :=
  (prepare_sequences_spec 1 1 [(1 : ℚ), 2, 3]).2 0 (by decide)

/-- C7: the forecaster builds windows first and `train` fails with
InsufficientData exactly when the window count max(0, N−L−H) is below
MIN_TRAINING_SAMPLES = 100 — in particular there is a series of at least
100 raw points on which training still fails. -/
theorem trainLSTM_window_threshold
    (mkNet : List (List ℚ) → List (List ℚ) → List (List ℚ) → List (List ℚ) →
      (List ℚ → List ℚ))
    (f : LSTMState) (vs : List ℚ) :
    (trainLSTM mkNet f vs = .error .insufficientData ↔
      max 0 ((vs.length : ℤ) - f.sequence_length - f.forecast_horizon) <
        MIN_TRAINING_SAMPLES) ∧
    ∃ vs' : List ℚ, 100 ≤ vs'.length ∧
      trainLSTM mkNet initLSTM vs' = .error .insufficientData := by
  have key : ∀ (g : LSTMState) (ws : List ℚ),
      trainLSTM mkNet g ws = .error .insufficientData ↔
        max 0 ((ws.length : ℤ) - g.sequence_length - g.forecast_horizon) <
          MIN_TRAINING_SAMPLES := by
    intro g ws
    have hlen : (prepare_sequences g.sequence_length g.forecast_horizon
        (ws.map (mmTransform (mmFit ws)))).length =
        ws.length - g.sequence_length - g.forecast_horizon := by
      rw [length_prepare_sequences, List.length_map]
    simp only [trainLSTM, hlen]
    split_ifs with h
    · simp only [true_iff]
      omega
    · simp only [reduceCtorEq, false_iff, not_lt]
      omega
  refine ⟨key f vs, List.replicate 100 0, by simp, ?_⟩
  rw [key]
  simp [initLSTM, LSTM_SEQUENCE_LENGTH, LSTM_FORECAST_HORIZON, MIN_TRAINING_SAMPLES]

/-- C4: saving a model under a key and loading the same key restores
identical metadata: the ordered feature-name list, contamination and sample
count for the anomaly detector, and sequence length and forecast horizon
for the forecaster. -/
theorem persistence_roundtrip (st : Store SavedIF) (key : String)
    (d d0 : IFDetector) (stf : Store SavedLSTM) (dev fld : String)
    (f f0 : LSTMState) :
    (∃ d', loadIF (saveIF st key d) key d0 = .ok d' ∧
      d'.feature_names = d.feature_names ∧
      d'.contamination = d.contamination ∧
      d'.training_samples = d.training_samples) ∧
    (∃ f', loadLSTM (saveLSTM stf dev fld f) dev fld f0 = .ok f' ∧
      f'.sequence_length = f.sequence_length ∧
      f'.forecast_horizon = f.forecast_horizon) := by
  constructor
  · refine ⟨_, ?_, rfl, rfl, rfl⟩
    simp [loadIF, saveIF, storeGet_put]
  · refine ⟨_, ?_, rfl, rfl⟩
    simp [loadLSTM, saveLSTM, storeGet_put]

/-- C10: anomaly-model training is deterministic: the fitted ensemble is
seeded with the fixed `random_state = 42`, so the environment entropy that
sklearn would otherwise draw on is ignored — two train calls on identical
inputs yield equal models and hence identical predictions on every input. -/
theorem trainIF_deterministic
    (mkForest : ℕ → ℚ → ℕ → List (List ℚ) → Forest)
    (fitSc : List (List ℚ) → Scaler) (e1 e2 : ℕ)
    (d : IFDetector) (df : DataFrame) (features : List String)
    (tdf : DataFrame) :
    trainIF mkForest fitSc e1 d df features =
      trainIF mkForest fitSc e2 d df features ∧
    (trainIF mkForest fitSc e1 d df features).map (fun d' => predictIF d' tdf) =
      (trainIF mkForest fitSc e2 d df features).map (fun d' => predictIF d' tdf) := by
  have h : trainIF mkForest fitSc e1 d df features =
      trainIF mkForest fitSc e2 d df features := by
    simp [trainIF, seedOf]
  exact ⟨h, by rw [h]⟩

/-- C1 counterexample: a scored batch with two unflagged rows whose scores
are -3/5 and -1/2.  The batch 1st percentile is -599/1000, so the first
row — although not flagged `is_anomaly` — gets severity "critical", not
"normal" as the claim requires for every unflagged row. -/
theorem predictIF_unflagged_not_normal_cex :
    predictIF cDetector cBatch =
      .ok [{ is_anomaly := false, anomaly_score := -3/5, severity := "critical"
             featureVals := [-3/5] },
           { is_anomaly := false, anomaly_score := -1/2, severity := "normal"
             featureVals := [-1/2] }] ∧
    ("critical" : String) ≠ "normal" := by
  constructor
  · norm_num [predictIF, cDetector, cBatch, sliceCols, colVal, transformRow,
      percentile1, severityOf, List.insertionSort, List.orderedInsert,
      List.getD, List.headD]
  · decide

/-- C1 (amended): in every scored batch, letting t be the 1st percentile of
the batch's anomaly scores, every row scoring strictly below t has severity
"critical"; every other flagged row has severity "warning"; and every row
neither scoring below t nor flagged has severity "normal".  (The claim's
original third clause — every unflagged row is "normal" — fails for
unflagged rows scoring below t, which the code marks "critical".) -/
theorem predictIF_severity_buckets (d : IFDetector) (df : DataFrame)
    (out : List ARow) (hok : predictIF d df = .ok out) :
    ∀ r ∈ out,
      (r.anomaly_score < percentile1 (out.map (·.anomaly_score)) →
        r.severity = "critical") ∧
      (¬ r.anomaly_score < percentile1 (out.map (·.anomaly_score)) →
        r.is_anomaly = true → r.severity = "warning") ∧
      (¬ r.anomaly_score < percentile1 (out.map (·.anomaly_score)) →
        r.is_anomaly = false → r.severity = "normal") := by
  cases hmod : d.model with
  | none => simp [predictIF, hmod] at hok
  | some forest =>
    simp only [predictIF, hmod] at hok
    by_cases hall : ∀ f ∈ d.feature_names, f ∈ df.columns
    · rw [if_pos hall] at hok
      have heq := (Except.ok.injEq _ _).mp hok
      subst heq
      intro r hr
      obtain ⟨x, hx, rfl⟩ := List.mem_map.mp hr
      simp only [List.map_map, Function.comp_def]
      refine ⟨fun h => ?_, fun h hf => ?_, fun h hf => ?_⟩
      · simp [severityOf, h]
      · simp [severityOf, h, hf]
      · simp [severityOf, h, hf]
    · rw [if_neg hall] at hok
      cases hok

/-- Witness for C1 (amended): a concrete scored batch; its first row scores
-2, strictly below the batch 1st percentile -99/50, and is marked
"critical". -/
theorem predictIF_severity_buckets_witness :
    (w1Row.anomaly_score < percentile1 (w1Out.map (·.anomaly_score)) →
      w1Row.severity = "critical") ∧
    (¬ w1Row.anomaly_score < percentile1 (w1Out.map (·.anomaly_score)) →
      w1Row.is_anomaly = true → w1Row.severity = "warning") ∧
    (¬ w1Row.anomaly_score < percentile1 (w1Out.map (·.anomaly_score)) →
      w1Row.is_anomaly = false → w1Row.severity = "normal") :=
  predictIF_severity_buckets w1Det w1Df w1Out
    (by norm_num [predictIF, w1Det, w1Df, w1Out, w1Row, sliceCols, colVal,
      transformRow, percentile1, severityOf, List.insertionSort,
      List.orderedInsert, List.getD, List.headD])
    w1Row (by simp [w1Out])

/-- C5: on a trained model, `predict` fails FeatureMismatch exactly when
some trained feature name is absent from the input table's columns; when
all are present it returns a result, with no feature-related error. -/
theorem predictIF_featureMismatch_iff (d : IFDetector) (df : DataFrame)
    (frst : Forest) (hm : d.model = some frst) :
    ((∃ f ∈ d.feature_names, f ∉ df.columns) →
      predictIF d df = .error (.featureMismatch
        (d.feature_names.filter (fun f => decide (f ∉ df.columns))))) ∧
    ((∀ f ∈ d.feature_names, f ∈ df.columns) →
      ∃ out, predictIF d df = .ok out) := by
  simp only [predictIF, hm]
  constructor
  · intro hmiss
    have hno : ¬ ∀ f ∈ d.feature_names, f ∈ df.columns := by
      intro hall
      obtain ⟨f, hf, hnf⟩ := hmiss
      exact hnf (hall f hf)
    rw [if_neg hno]
  · intro hall
    rw [if_pos hall]
    exact ⟨_, rfl⟩

/-- Witness for C5: a detector trained on ["cpu_usage"]; an input whose only
column is "uptime" yields FeatureMismatch, an input holding "cpu_usage"
predicts successfully. -/
theorem predictIF_featureMismatch_iff_witness :
    predictIF w5Det w5DfBad = .error (.featureMismatch
      (w5Det.feature_names.filter (fun f => decide (f ∉ w5DfBad.columns)))) ∧
    ∃ out, predictIF w5Det w5DfOk = .ok out :=
  ⟨(predictIF_featureMismatch_iff w5Det w5DfBad ⟨fun _ => 0, 0⟩ rfl).1
      (by decide),
   (predictIF_featureMismatch_iff w5Det w5DfOk ⟨fun _ => 0, 0⟩ rfl).2
      (by decide)⟩

/-- C6: anomaly-model train succeeds on any feature table with at least
MIN_TRAINING_SAMPLES = 100 rows and at least 2 usable features present in
the table, storing exactly the given feature-name list; with fewer rows it
fails with InsufficientData. -/
theorem trainIF_spec
    (mkForest : ℕ → ℚ → ℕ → List (List ℚ) → Forest)
    (fitSc : List (List ℚ) → Scaler) (entropy : ℕ)
    (d : IFDetector) (df : DataFrame) (features : List String) :
    (MIN_TRAINING_SAMPLES ≤ df.rows.length →
      (∀ f ∈ features, f ∈ df.columns) → 2 ≤ features.length →
      ∃ d', trainIF mkForest fitSc entropy d df features = .ok d' ∧
        d'.feature_names = features) ∧
    (df.rows.length < MIN_TRAINING_SAMPLES →
      trainIF mkForest fitSc entropy d df features = .error .insufficientData) := by
  constructor
  · intro hN hF _
    have h1 : ¬ df.rows.length < MIN_TRAINING_SAMPLES := by omega
    simp only [trainIF, if_neg h1, if_neg (not_not_intro hF)]
    exact ⟨_, rfl, rfl⟩
  · intro hN
    simp only [trainIF, if_pos hN]

/-- Witness for C6: 100 rows over features ["cpu_usage",
"memory_usage_percent"] train successfully and store that list; a single
row fails with InsufficientData. -/
theorem trainIF_spec_witness :
    (∃ d', trainIF w6Forest w6Scaler 0 initIF w6Df
        ["cpu_usage", "memory_usage_percent"] = .ok d' ∧
      d'.feature_names = ["cpu_usage", "memory_usage_percent"]) ∧
    trainIF w6Forest w6Scaler 0 initIF w6DfSmall
        ["cpu_usage", "memory_usage_percent"] = .error .insufficientData :=
  ⟨(trainIF_spec w6Forest w6Scaler 0 initIF w6Df
      ["cpu_usage", "memory_usage_percent"]).1
        (by simp [w6Df, MIN_TRAINING_SAMPLES]) (by decide) (by decide),
   (trainIF_spec w6Forest w6Scaler 0 initIF w6DfSmall
      ["cpu_usage", "memory_usage_percent"]).2
        (by simp [w6DfSmall, MIN_TRAINING_SAMPLES])⟩

/-- C3 counterexample: a successful predict call on the 4-point series
[2, 0, 0, 0] with L = 3.  The code's `recent_std` is the std of the whole
input column (here 1), not of the last L values (here [0, 0, 0], std 0), so
the confidence bound differs from predicted ± 1.96 × std(last-L window). -/
theorem predictLSTM_std_window_cex :
    ∃ out, predictLSTM cForecaster cRecent = .ok out ∧
      (out.headD ⟨0, 0, 0⟩).confidence_upper ≠
        ((out.headD ⟨0, 0, 0⟩).predicted_value : ℝ) +
          1.96 * sampleStd (takeLast cRecent cForecaster.sequence_length) := by
  have hstd : sampleStd cRecent = 1 := by
    have hv : sampleVarQ cRecent = 1 := by
      norm_num [sampleVarQ, cRecent]
    rw [sampleStd, hv]
    norm_num
  have htail : takeLast cRecent cForecaster.sequence_length = [0, 0, 0] := by
    norm_num [takeLast, cRecent, cForecaster]
  have hstd3 : sampleStd (takeLast cRecent cForecaster.sequence_length) = 0 := by
    rw [htail]
    have hv : sampleVarQ [0, 0, 0] = 0 := by
      norm_num [sampleVarQ]
    rw [sampleStd, hv]
    norm_num
  refine ⟨[⟨0, max 0 ((0 : ℚ) - 1.96 * sampleStd cRecent),
    ((0 : ℚ) : ℝ) + 1.96 * sampleStd cRecent⟩], ?_, ?_⟩
  · norm_num [predictLSTM, cForecaster, cRecent, takeLast, mmTransform,
      mmInverse, mmScaleFac]
  · simp only [List.headD]
    rw [hstd, hstd3]
    norm_num

/-- C3 (amended): every successful forecaster predict call attaches the
same fixed-width band to each of the H output steps, computed from the std
of the ENTIRE raw input series handed to predict (not only its last L
values): upper = predicted + 1.96×std, lower = predicted − 1.96×std clamped
at 0; in particular predicted 2.0 with that std 5.0 gives lower 0.0 and
upper 11.8. -/
theorem predictLSTM_confidence_band (f : LSTMState) (net : List ℚ → List ℚ)
    (recent : List ℚ) (hm : f.model = some net)
    (hlen : f.sequence_length ≤ recent.length)
    (hH : ∀ x, (net x).length = f.forecast_horizon) :
    ∃ out, predictLSTM f recent = .ok out ∧
      out.length = f.forecast_horizon ∧
      (∀ step ∈ out,
        step.confidence_upper =
          (step.predicted_value : ℝ) + 1.96 * sampleStd recent ∧
        step.confidence_lower =
          max 0 ((step.predicted_value : ℝ) - 1.96 * sampleStd recent)) ∧
      (∀ step ∈ out, step.predicted_value = 2 → sampleStd recent = 5 →
        step.confidence_lower = 0 ∧ step.confidence_upper = 11.8) := by
  have hvl : (takeLast recent f.sequence_length).length = f.sequence_length := by
    simp only [takeLast, List.length_drop]
    omega
  simp only [predictLSTM, hm]
  rw [if_neg (by rw [hvl]; exact lt_irrefl _)]
  refine ⟨_, rfl, ?_, ?_, ?_⟩
  · simp [hH]
  · intro step hs
    obtain ⟨p, hp, rfl⟩ := List.mem_map.mp hs
    exact ⟨rfl, rfl⟩
  · intro step hs h2 h5
    obtain ⟨p, hp, rfl⟩ := List.mem_map.mp hs
    simp only at h2
    subst h2
    rw [h5]
    constructor
    · push_cast
      norm_num
    · push_cast
      norm_num

/-- Witness for C3 (amended): a forecaster with L = 1, H = 2 predicting
from the single-point series [3]. -/
theorem predictLSTM_confidence_band_witness :
    ∃ out, predictLSTM w3F w3Recent = .ok out ∧
      out.length = w3F.forecast_horizon ∧
      (∀ step ∈ out,
        step.confidence_upper =
          (step.predicted_value : ℝ) + 1.96 * sampleStd w3Recent ∧
        step.confidence_lower =
          max 0 ((step.predicted_value : ℝ) - 1.96 * sampleStd w3Recent)) ∧
      (∀ step ∈ out, step.predicted_value = 2 → sampleStd w3Recent = 5 →
        step.confidence_lower = 0 ∧ step.confidence_upper = 11.8) :=
  predictLSTM_confidence_band w3F (fun _ => [1/2, 1/4]) w3Recent rfl
    (by norm_num [w3F, w3Recent]) (fun _ => rfl)

/-- C8 counterexample: device "dev" has a trained model in the store but
the fetch returns zero rows in range: the endpoint answers status 404
("No data found for specified time period"), not 400 as claimed. -/
theorem detect_no_data_404_cex :
    detect c8Store "dev" c8EmptyDf =
      .error (404, "No data found for specified time period") ∧
    (404 : ℕ) ≠ 400 := by
  refine ⟨?_, by decide⟩
  simp [detect, c8Store, c8EmptyDf, c8Detector, loadIF, saveIF, storeGet,
    storePut, List.lookup]

/-- C8 (amended): on detect, an absent model for the device yields HTTP 404
(model not trained), and a trained model whose telemetry fetch returns zero
rows in the requested range ALSO yields 404 ("No data found for specified
time period") — not 400. -/
theorem detect_statuses (st : Store SavedIF) (dev : String) (df : DataFrame)
    (a : SavedIF) :
    (storeGet st dev = some a → df.rows.length = 0 →
      detect st dev df =
        .error (404, "No data found for specified time period")) ∧
    (storeGet st dev = none →
      detect st dev df =
        .error (404, "Model not trained. Call /ml/anomalies/train endpoint first.")) := by
  constructor
  · intro hs h0
    simp [detect, loadIF, hs, h0]
  · intro hs
    simp [detect, loadIF, hs]

/-- Witness for C8 (amended): both 404 branches at concrete inputs. -/
theorem detect_statuses_witness :
    detect c8Store "dev" c8EmptyDf =
      .error (404, "No data found for specified time period") ∧
    detect ([] : Store SavedIF) "dev" c8EmptyDf =
      .error (404, "Model not trained. Call /ml/anomalies/train endpoint first.") :=
  ⟨(detect_statuses c8Store "dev" c8EmptyDf
      { model := c8Detector.model
        scaler := c8Detector.scaler
        metadata :=
          { feature_names := c8Detector.feature_names
            contamination := c8Detector.contamination
            training_samples := c8Detector.training_samples } }).1
      (by simp [c8Store, saveIF, storeGet_put]) rfl,
   (detect_statuses ([] : Store SavedIF) "dev" c8EmptyDf
      { model := none, scaler := ⟨[], []⟩, metadata := ⟨[], 0, 0⟩ }).2 rfl⟩

/-- C9: every successful detect response returns at most 100 anomalies — the
first 100 flagged rows in batch order — while anomalies_detected counts all
flagged rows; on a batch with 101 flagged rows the count exceeds the
returned list's length. -/
theorem detect_truncates_anomalies :
    (∀ st dev df resp, detect st dev df = .ok resp →
      ∃ results : List ARow,
        resp.analyzed_points = results.length ∧
        resp.anomalies = (results.filter (·.is_anomaly)).take 100 ∧
        resp.anomalies_detected = (results.filter (·.is_anomaly)).length ∧
        resp.anomalies.length ≤ 100) ∧
    ∃ resp, detect c9St "dev9" c9Df = .ok resp ∧
      resp.anomalies.length < resp.anomalies_detected := by
  constructor
  · intro st dev df resp hok
    cases hload : loadIF st dev initIF with
    | error e =>
      simp only [detect, hload] at hok
      cases hok
    | ok det =>
      simp only [detect, hload] at hok
      by_cases h0 : df.rows.length = 0
      · simp [h0] at hok
      · rw [if_neg h0] at hok
        cases hpred : predictIF det df with
        | error e =>
          simp only [hpred] at hok
          cases hok
        | ok results =>
          simp only [hpred, Except.ok.injEq] at hok
          subst hok
          refine ⟨results, rfl, rfl, rfl, ?_⟩
          simp only [List.length_take]
          omega
  · have hins : List.insertionSort (· ≤ ·) (List.replicate 101 (-1 : ℚ)) =
        List.replicate 101 (-1 : ℚ) := by
      have hs : (List.replicate 101 (-1 : ℚ)).Sorted (· ≤ ·) :=
        List.pairwise_replicate.mpr (Or.inr le_rfl)
      exact hs.insertionSort_eq
    have ht : percentile1 (List.replicate 101 (-1 : ℚ)) = -1 := by
      simp only [percentile1, hins, List.length_replicate]
      norm_num [List.getD, List.getElem?_replicate]
    have hpred : predictIF c9Det c9Df = .ok (List.replicate 101 c9Row) := by
      norm_num [predictIF, c9Det, c9Df, c9Row, sliceCols, colVal,
        transformRow, List.map_replicate, severityOf, ht]
    have hload : loadIF c9St "dev9" initIF = .ok c9Det := by
      simp [loadIF, c9St, saveIF, storeGet_put]
    refine ⟨⟨101, 101, List.replicate 100 c9Row⟩, ?_, by norm_num⟩
    unfold detect
    rw [hload]
    simp only []
    rw [if_neg (by simp [c9Df])]
    rw [hpred]
    simp only []
    rw [filter_replicate_of_pos _ _ (by rfl)]
    simp [List.take_replicate]

/-- Witness for C9: a concrete successful detect on a one-row batch. -/
theorem detect_truncates_anomalies_witness :
    ∃ results : List ARow,
      (DetectResponse.mk 1 1 [c9Row]).analyzed_points = results.length ∧
      (DetectResponse.mk 1 1 [c9Row]).anomalies =
        (results.filter (·.is_anomaly)).take 100 ∧
      (DetectResponse.mk 1 1 [c9Row]).anomalies_detected =
        (results.filter (·.is_anomaly)).length ∧
      (DetectResponse.mk 1 1 [c9Row]).anomalies.length ≤ 100 :=
  detect_truncates_anomalies.1 c9St "dev9" c9Df1 ⟨1, 1, [c9Row]⟩
    (by norm_num [detect, loadIF, c9St, saveIF, storeGet, storePut,
      List.lookup, predictIF, c9Det, c9Df1, c9Row, sliceCols, colVal,
      transformRow, percentile1, severityOf, List.insertionSort,
      List.orderedInsert, List.getD])

end Zemfyre
